import Mathlib

/-!
Shallow embedding of the CSV-to-database reconciliation pipeline of the
personal-reading-dashboard backend (`backend/app/services/*.py` and
`backend/app/scripts/orchestrate_csv_to_db.py`), together with theorems
settling the specification claims about it.

Conventions of the embedding:
* Python strings are Lean `String`s; the handful of Python string methods
  the code uses (`strip`, `replace`, `rstrip`, `isdigit`, `split`) are
  re-implemented over `List Char` so that every definition reduces in the
  kernel.
* Python truthiness on the values the code tests (`str`, `Optional[str]`,
  `Optional[int]`, lists) is modelled explicitly (`""`, `None`, `0`, `[]`
  are falsy).
* The SQLAlchemy store is a `List Book`; a query is a filter over it,
  a delete/insert/mutation produces a new list, and a `commit` is recorded
  as a `Bool` in the function result.
* The external HTTP service is an oracle `String → Nat → HttpResponse`
  mapping a query string and an attempt index to the response the service
  gives on that attempt.
* Fallible Python paths are `Except`/`Option` values.
-/

deriving instance DecidableEq for Except

namespace ReadingDashboard

/-! ## Python string primitives -/

/-- Python `str.strip()` on the character list: drop leading and trailing
whitespace. -/
def stripChars (cs : List Char) : List Char :=
  ((cs.dropWhile Char.isWhitespace).reverse.dropWhile Char.isWhitespace).reverse

/-- Python `str.strip()`. -/
def pyStrip (s : String) : String :=
  String.mk (stripChars s.data)

/-- Python `str.isdigit()` (restricted to ASCII digits, which is what the
Goodreads export contains): true when the string is non-empty and all
characters are digits. -/
def pyIsDigit (s : String) : Bool :=
  s.data ≠ [] && s.data.all Char.isDigit

/-- Value of a digit string, used to model `int(s)` on strings already
checked with `isdigit`. -/
def natOfDigits (cs : List Char) : Nat :=
  cs.foldl (fun n c => n * 10 + (c.toNat - 48)) 0

/-- Python `int(s)` as used on the numeric date components the external
API returns; a non-numeric argument would raise in Python and is mapped
to 0 here (never exercised by the claims). -/
def pyIntD (cs : List Char) : Nat :=
  if cs ≠ [] ∧ cs.all Char.isDigit then natOfDigits cs else 0

/-- One step of Python `str.replace(pat, "")`: leftmost, non-overlapping.
The fuel argument bounds the number of scanning steps; `cs.length` is
always enough. -/
def pyReplaceGo (pat : List Char) : Nat → List Char → List Char
  | 0, cs => cs
  | _ + 1, [] => []
  | fuel + 1, c :: rest =>
      if pat.isPrefixOf (c :: rest) ∧ pat ≠ [] then
        pyReplaceGo pat fuel ((c :: rest).drop pat.length)
      else
        c :: pyReplaceGo pat fuel rest

/-- Python `s.replace(pat, "")`. -/
def pyReplaceEmpty (s : String) (pat : List Char) : String :=
  String.mk (pyReplaceGo pat s.data.length s.data)

/-- Python `s.rstrip(c)` for a single character. -/
def pyRStrip (s : String) (c : Char) : String :=
  String.mk ((s.data.reverse.dropWhile (· = c)).reverse)

/-- Python `s.split(sep)` for a one-character separator (`"a/b/".split("/")
= ["a","b",""]`, `"".split("/") = [""]`). -/
def splitOnChar (sep : Char) (cs : List Char) : List (List Char) :=
  cs.foldr
    (fun c acc =>
      if c = sep then [] :: acc
      else
        match acc with
        | a :: rest => (c :: a) :: rest
        | [] => [[c]])
    [[]]

/-- Python truthiness of an `Optional[str]`: `None` and `""` are falsy. -/
def optStrTruthy : Option String → Bool
  | none => false
  | some s => s ≠ ""

/-- Python truthiness of an `Optional[int]`: `None` and `0` are falsy. -/
def optNatTruthy : Option Nat → Bool
  | none => false
  | some n => n ≠ 0

/-! ## Data model -/

/-- A calendar date as produced by `datetime.date`. -/
structure PDate where
  year : Nat
  month : Nat
  day : Nat
deriving DecidableEq

/-- The Pydantic `CSVBook` schema (`backend/app/schemas/books_schema.py`):
a validated candidate record parsed from one CSV row. -/
structure CSVBook where
  title : String
  author : String
  isbn_10 : Option String
  isbn_13 : Option String
  additional_authors : Option String
  num_pages : Option Nat
  goodreads_id : String
  status : String
  finish_date : Option PDate
deriving DecidableEq

/-- The Pydantic `BookCreate` schema: the canonical merged record handed
to ingestion. -/
structure BookCreate where
  google_books_id : Option String
  google_books_link : Option String
  title : String
  authors : List String
  published_date : Option PDate
  year_published : Option Nat
  page_count : Option Nat
  categories : Option (List String)
  genre : Option String
  description : Option String
  isbn_10 : Option String
  isbn_13 : Option String
  small_thumbnail : Option String
  thumbnail : Option String
  status : String
  goodreads_id : String
  finish_date : Option PDate
deriving DecidableEq

/-- The SQLAlchemy `Book` ORM row (`backend/app/models/book.py`), minus the
database-generated columns (`id`, `created_at`, `updated_at`, `start_date`),
which no pipeline code reads or writes. -/
structure Book where
  google_books_id : Option String
  google_books_link : Option String
  title : String
  authors : List String
  published_date : Option PDate
  year_published : Option Nat
  page_count : Option Nat
  categories : Option (List String)
  genre : Option String
  description : Option String
  isbn_10 : Option String
  isbn_13 : Option String
  small_thumbnail : Option String
  thumbnail : Option String
  status : String
  goodreads_id : String
  finish_date : Option PDate
deriving DecidableEq

/-- Conversion `Book(**book_create.model_dump())` as done by `ingest_books_to_db`. -/
def bookOfCreate (bc : BookCreate) : Book :=
  { google_books_id := bc.google_books_id
    google_books_link := bc.google_books_link
    title := bc.title
    authors := bc.authors
    published_date := bc.published_date
    year_published := bc.year_published
    page_count := bc.page_count
    categories := bc.categories
    genre := bc.genre
    description := bc.description
    isbn_10 := bc.isbn_10
    isbn_13 := bc.isbn_13
    small_thumbnail := bc.small_thumbnail
    thumbnail := bc.thumbnail
    status := bc.status
    goodreads_id := bc.goodreads_id
    finish_date := bc.finish_date }

/-! ## CSV parser (`backend/app/services/csv_parser.py`) -/

/-- One raw CSV row after `csv.DictReader`: the string value of each column
the parser reads (a missing optional column reads as `""`, matching
`row.get(col, "")`). -/
structure CsvRow where
  title : String
  author : String
  isbn : String
  isbn13 : String
  additionalAuthors : String
  numPages : String
  bookId : String
  exclusiveShelf : String
  dateRead : String
deriving DecidableEq

/-- The error that escapes `parse_goodreads_csv` when
`datetime.strptime(finish_date_str, "%Y/%m/%d")` fails: a `ValueError`,
which the row loop's `except ValidationError` does not catch, so it
reaches the outer handler and is re-raised, aborting the whole parse. -/
inductive ParseError where
  | valueError
deriving DecidableEq

/-- Number of days `datetime.date` accepts in a month. -/
def daysInMonth (y m : Nat) : Nat :=
  if m = 2 then
    if y % 4 = 0 ∧ (y % 100 ≠ 0 ∨ y % 400 = 0) then 29 else 28
  else if m = 4 ∨ m = 6 ∨ m = 9 ∨ m = 11 then 30
  else 31

/-- Model of `datetime.strptime(s, "%Y/%m/%d").date()`: exactly four year digits,
one or two month digits (1-12), one or two day digits valid for that
month; anything else raises `ValueError` (here: `none`). -/
def parseDateYMD (s : String) : Option PDate :=
  match splitOnChar '/' s.data with
  | [y, m, d] =>
      if y.length = 4 ∧ y.all Char.isDigit ∧
         1 ≤ m.length ∧ m.length ≤ 2 ∧ m.all Char.isDigit ∧
         1 ≤ d.length ∧ d.length ≤ 2 ∧ d.all Char.isDigit then
        let yn := natOfDigits y
        let mn := natOfDigits m
        let dn := natOfDigits d
        if 1 ≤ mn ∧ mn ≤ 12 ∧ 1 ≤ dn ∧ dn ≤ daysInMonth yn mn then
          some ⟨yn, mn, dn⟩
        else none
      else none
  | _ => none

/-- The status strings accepted by `CSVBook`'s
`Literal["read", "currently-reading", "to-read"]` field. -/
def statusLiterals : List String := ["read", "currently-reading", "to-read"]

/-- Pydantic validation of `CSVBook(**book_dict)` on the values the parser
supplies: every field is present and well-typed by construction, so the
only way validation can fail (raise `ValidationError`, here `none`) is a
status outside the `Literal` set. -/
def mkCSVBook (title author : String) (isbn_10 isbn_13 additional_authors : Option String)
    (num_pages : Option Nat) (goodreads_id status : String) (finish_date : Option PDate) :
    Option CSVBook :=
  if status ∈ statusLiterals then
    some { title := title, author := author, isbn_10 := isbn_10, isbn_13 := isbn_13,
           additional_authors := additional_authors, num_pages := num_pages,
           goodreads_id := goodreads_id, status := status, finish_date := finish_date }
  else none

/-- ISBN field handling: strip, treat empty as `None`, strip the
Goodreads quote artifact (`replace('="', '')` then `rstrip('"')`). -/
def parseIsbnField (v : String) : Option String :=
  let s := pyStrip v
  if s = "" then none
  else some (pyRStrip (pyReplaceEmpty s ['=', '"']) '"')

/-- Model of `datetime.strptime(finish_date_str, "%Y/%m/%d").date() if
finish_date_str else None` on the already-stripped field: an empty field
is `None` (absent), a parseable one is a date, anything else raises
`ValueError`. -/
def parseFinishDate (s : String) : Except ParseError (Option PDate) :=
  if s = "" then Except.ok none
  else
    match parseDateYMD s with
    | some d => Except.ok (some d)
    | none => Except.error ParseError.valueError

/-- Processing of one CSV row inside the parser's row loop:
`Except.error` models the uncaught `ValueError` from `strptime`
(fatal), `Except.ok none` a row skipped after `ValidationError`, and
`Except.ok (some b)` a parsed candidate. -/
def parseRow (row : CsvRow) : Except ParseError (Option CSVBook) :=
  let isbn_10 := parseIsbnField row.isbn
  let isbn_13 := parseIsbnField row.isbn13
  let additional_authors :=
    if row.additionalAuthors ≠ "" then some (pyStrip row.additionalAuthors) else none
  let num_pages_str := pyStrip row.numPages
  let num_pages :=
    if num_pages_str ≠ "" ∧ pyIsDigit num_pages_str then
      some (natOfDigits num_pages_str.data)
    else none
  match parseFinishDate (pyStrip row.dateRead) with
  | Except.error e => Except.error e
  | Except.ok fd =>
      Except.ok (mkCSVBook (pyStrip row.title) (pyStrip row.author) isbn_10 isbn_13
        additional_authors num_pages (pyStrip row.bookId) (pyStrip row.exclusiveShelf) fd)

/-- The function `parse_goodreads_csv` restricted to its row loop (the file-existence
and required-column checks precede it and are independent of the claims):
accumulates parsed candidates in source order, skips rows that fail
validation, and aborts on the first uncaught `ValueError`. -/
def parse_goodreads_csv : List CsvRow → Except ParseError (List CSVBook)
  | [] => Except.ok []
  | row :: rest =>
      match parseRow row with
      | Except.error e => Except.error e
      | Except.ok none => parse_goodreads_csv rest
      | Except.ok (some b) => (parse_goodreads_csv rest).map (fun bs => b :: bs)

/-! ## Google Books enrichment client (`backend/app/services/google_books.py`) -/

/-- One `{"type": ..., "identifier": ...}` entry of
`volumeInfo["industryIdentifiers"]` (either key may be missing). -/
structure IndustryIdentifier where
  idType : Option String
  identifier : Option String
deriving DecidableEq

/-- The `imageLinks` sub-dictionary of a volume. -/
structure ImageLinks where
  smallThumbnail : Option String
  thumbnail : Option String
deriving DecidableEq

/-- The `volumeInfo` dictionary of one returned volume; every key the code
reads, each possibly missing. A volume with no `volumeInfo` key at all is
modelled by all-`none` fields (the code defaults it to `{}`). -/
structure VolumeInfo where
  title : Option String
  authors : Option (List String)
  publishedDate : Option String
  pageCount : Option Nat
  categories : Option (List String)
  description : Option String
  industryIdentifiers : List IndustryIdentifier
  imageLinks : Option ImageLinks
deriving DecidableEq

/-- One element of the response's `items` list. -/
structure Volume where
  id : Option String
  selfLink : Option String
  volumeInfo : VolumeInfo
deriving DecidableEq

/-- A volume with every field missing; only used as the (unreachable)
default for indexing `items[0]` on a list the call sites guarantee
non-empty. -/
def emptyVolume : Volume :=
  { id := none, selfLink := none,
    volumeInfo := { title := none, authors := none, publishedDate := none,
                    pageCount := none, categories := none, description := none,
                    industryIdentifiers := [], imageLinks := none } }

/-- One HTTP answer from the external service: a status code and, for 200
responses, the parsed `items` list of the JSON body (missing or empty
`items` is `[]`). -/
structure HttpResponse where
  status : Nat
  items : List Volume
deriving DecidableEq

/-- What one run of `call_google_books_api` did: the returned value
(`some items` when the query matched, `none` otherwise), how many HTTP
attempts it made, and the backoff delays (seconds) it slept between
attempts. -/
structure CallResult where
  result : Option (List Volume)
  attempts : Nat
  delays : List Nat
deriving DecidableEq

/-- The retry loop of `call_google_books_api`. `attempt` is the current
0-based loop index, `fuel + 1` the number of iterations the `for` loop has
left; `attempt < max_retries - 1` in the source is exactly `fuel > 0`
here. Status 200 returns the items (or `None` when empty); status 429
sleeps `(2 ^ attempt) * 2` seconds and retries while iterations remain,
else returns `None`; any other status logs an error and returns `None`. -/
def callApiGo (resp : Nat → HttpResponse) : Nat → Nat → CallResult
  | _, 0 => { result := none, attempts := 0, delays := [] }
  | attempt, fuel + 1 =>
      let r := resp attempt
      if r.status = 200 then
        { result := if r.items ≠ [] then some r.items else none,
          attempts := 1, delays := [] }
      else if r.status = 429 then
        if fuel > 0 then
          let rest := callApiGo resp (attempt + 1) fuel
          { result := rest.result, attempts := rest.attempts + 1,
            delays := (2 ^ attempt) * 2 :: rest.delays }
        else
          { result := none, attempts := 1, delays := [] }
      else
        { result := none, attempts := 1, delays := [] }

/-- Model of `call_google_books_api(query, max_retries)`: the per-query helper of
`get_google_books_data`. `resp` is the sequence of responses the service
gives this query, indexed by attempt. -/
def call_google_books_api (resp : Nat → HttpResponse) (max_retries : Nat) : CallResult :=
  callApiGo resp 0 max_retries

/-- The dictionary `get_google_books_data` returns on a match
(assembled by `process_api_response`). -/
structure GBData where
  google_books_id : Option String
  google_books_link : Option String
  title : String
  authors : List String
  published_date : Option PDate
  year_published : Option Nat
  page_count : Option Nat
  categories : Option (List String)
  genre : Option String
  description : Option String
  isbn_10 : Option String
  isbn_13 : Option String
  small_thumbnail : Option String
  thumbnail : Option String
deriving DecidableEq

/-- Model of `process_api_response(data)`: builds the book dictionary from
`data["items"][0]` (call sites guarantee `items` is non-empty). `title`
and `author` are the search arguments used as fallbacks. -/
def processApiResponse (title author : String) (items : List Volume) : GBData :=
  let first_result := items.headD emptyVolume
  let volume_info := first_result.volumeInfo
  let isbns := volume_info.industryIdentifiers.foldl
    (fun acc ident =>
      if ident.idType = some "ISBN_10" then (ident.identifier, acc.2)
      else if ident.idType = some "ISBN_13" then (acc.1, ident.identifier)
      else acc)
    ((none : Option String), (none : Option String))
  let book_publish_date : Option PDate :=
    match volume_info.publishedDate with
    | none => none
    | some pd =>
        if pd = "" then none
        else
          let date_parts := splitOnChar '-' pd.data
          if pd.data.length = 4 then some ⟨pyIntD pd.data, 1, 1⟩
          else if pd.data.length = 7 then
            some ⟨pyIntD (date_parts.getD 0 []), pyIntD (date_parts.getD 1 []), 1⟩
          else if pd.data.length = 10 then
            some ⟨pyIntD (date_parts.getD 0 []), pyIntD (date_parts.getD 1 []),
                  pyIntD (date_parts.getD 2 [])⟩
          else none
  { google_books_id := first_result.id
    google_books_link := first_result.selfLink
    title := match volume_info.title with
             | some t => if t ≠ "" then t else title
             | none => title
    authors := match volume_info.authors with
               | some l => if l ≠ [] then l else [author]
               | none => [author]
    published_date := book_publish_date
    year_published := book_publish_date.map PDate.year
    page_count := volume_info.pageCount
    categories := volume_info.categories
    genre := match volume_info.categories with
             | some (c :: _) => some c
             | some [] => none
             | none => none
    description := volume_info.description
    isbn_10 := if optStrTruthy isbns.1 then isbns.1 else none
    isbn_13 := if optStrTruthy isbns.2 then isbns.2 else none
    small_thumbnail := (volume_info.imageLinks.map ImageLinks.smallThumbnail).getD none
    thumbnail := (volume_info.imageLinks.map ImageLinks.thumbnail).getD none }

/-- Model of `get_google_books_data(title, author, isbn_10, isbn_13)` with the
service modelled by `resp : query → attempt → response`. Tiers are tried
in source order: ISBN-13 when truthy, ISBN-10 when truthy, then the
title/author search; the first query whose call yields items is processed
and returned, and `none` means "no match". -/
def get_google_books_data (resp : String → Nat → HttpResponse)
    (title author : String) (isbn_10 isbn_13 : Option String) : Option GBData :=
  let tryTitleAuthor : Option GBData :=
    match (call_google_books_api
            (resp ("intitle:" ++ title ++ "+inauthor:" ++ author)) 3).result with
    | some items => some (processApiResponse title author items)
    | none => none
  let tryIsbn10 : Option GBData :=
    if optStrTruthy isbn_10 then
      match (call_google_books_api (resp ("isbn:" ++ isbn_10.getD "")) 3).result with
      | some items => some (processApiResponse title author items)
      | none => tryTitleAuthor
    else tryTitleAuthor
  if optStrTruthy isbn_13 then
    match (call_google_books_api (resp ("isbn:" ++ isbn_13.getD "")) 3).result with
    | some items => some (processApiResponse title author items)
    | none => tryIsbn10
  else tryIsbn10

/-! ## Record merger (`backend/app/services/book_transformer.py`) -/

/-- Model of `transform_book(book, google_books_data)`: merge a candidate and its
optional enrichment result into a `BookCreate`. With enrichment present,
`title` is `book.title if book.title else google_books_data.get("title")`
and `page_count` is `book.num_pages if book.num_pages else
google_books_data.get("page_count")` (Python truthiness); with enrichment
absent, the record is built from the candidate alone. On the values the
pipeline feeds it, every `BookCreate` field is present and well-typed, so
the `except ValidationError` re-raise path is unreachable and the
function is total here. -/
def transform_book (book : CSVBook) (google_books_data : Option GBData) : BookCreate :=
  match google_books_data with
  | some g =>
      { google_books_id := g.google_books_id
        google_books_link := g.google_books_link
        title := if book.title ≠ "" then book.title else g.title
        authors := g.authors
        published_date := g.published_date
        year_published := g.year_published
        page_count := if optNatTruthy book.num_pages then book.num_pages else g.page_count
        categories := g.categories
        genre := g.genre
        description := g.description
        isbn_10 := g.isbn_10
        isbn_13 := g.isbn_13
        small_thumbnail := g.small_thumbnail
        thumbnail := g.thumbnail
        status := book.status
        goodreads_id := book.goodreads_id
        finish_date := book.finish_date }
  | none =>
      { google_books_id := none
        google_books_link := none
        title := book.title
        authors := [book.author]
        published_date := none
        year_published := none
        page_count := book.num_pages
        categories := none
        genre := none
        description := none
        isbn_10 := none
        isbn_13 := none
        small_thumbnail := none
        thumbnail := none
        status := book.status
        goodreads_id := book.goodreads_id
        finish_date := book.finish_date }

/-! ## Store passes (`delete_books.py`, `update_books.py`, `deduplication.py`,
`ingest_books_to_db.py`) -/

/-- The comprehension `[book_id for book in books if (book_id := book.goodreads_id)]`:
the truthy (non-empty) incoming goodreads ids, in order. -/
def truthyIds (books : List CSVBook) : List String :=
  books.filterMap (fun b => if b.goodreads_id ≠ "" then some b.goodreads_id else none)

/-- Model of `delete_books(books, db)`: when `books` is non-empty, delete every
stored row whose `goodreads_id` is not among the truthy incoming ids and
commit once if anything was deleted; when `books` is empty the guard
`if books:` skips the whole pass. Returns (new store, deleted count,
whether a commit happened). -/
def delete_books (books : List CSVBook) (store : List Book) :
    List Book × Nat × Bool :=
  if books.isEmpty then (store, 0, false)
  else
    let incoming_ids := truthyIds books
    let books_to_delete := store.filter (fun bk => bk.goodreads_id ∉ incoming_ids)
    (store.filter (fun bk => bk.goodreads_id ∈ incoming_ids),
     books_to_delete.length,
     books_to_delete.length ≠ 0)

/-- Index of the stored row `existing_books_dict[gid]` refers to: the
dict is built last-wins from the query result, so it is the last row of
the store with that `goodreads_id` (the `in_` filter never changes which
row is last for an id it contains). -/
def lastIdxOf (store : List Book) (gid : String) : Option Nat :=
  ((List.range store.length).filter
    (fun i => match store.get? i with
              | some bk => bk.goodreads_id = gid
              | none => false)).getLast?

/-- The row loop of `update_books`: walk the incoming `(goodreads_id,
status)` pairs; when the store holds that id and its status differs,
overwrite the stored status (mutating the dict's shared object, i.e. the
row at that index) and count it. -/
def updateGo : List (String × String) → List Book → Nat → List Book × Nat
  | [], store, count => (store, count)
  | (gid, new_status) :: rest, store, count =>
      match lastIdxOf store gid with
      | none => updateGo rest store count
      | some i =>
          match store.get? i with
          | none => updateGo rest store count
          | some existing_book =>
              if existing_book.status ≠ new_status then
                updateGo rest (store.set i { existing_book with status := new_status })
                  (count + 1)
              else updateGo rest store count

/-- Model of `update_books(books, db)`: flip the stored status of every incoming
book whose status changed; commit once iff the count is positive; the
`if books:` guard skips the pass for an empty list. Returns (new store,
updated count, whether a commit happened). -/
def update_books (books : List CSVBook) (store : List Book) :
    List Book × Nat × Bool :=
  let incoming_books :=
    books.filterMap (fun b =>
      if b.goodreads_id ≠ "" then some (b.goodreads_id, b.status) else none)
  if books.isEmpty then (store, 0, false)
  else
    let r := updateGo incoming_books store 0
    (r.1, r.2, r.2 ≠ 0)

/-- A persistence-layer fault raised by a store query
(`SQLAlchemyError` or any other exception out of `db.query`). -/
inductive DBError where
  | sqlError (msg : String)
deriving DecidableEq

/-- How a call of `deduplicate_books` terminates in Python: either a
value, or an uncaught exception — which is `NameError`
(`UnboundLocalError`) when `return new_books` reads the never-assigned
variable, or would be a store error had one propagated. -/
inductive PyError where
  | nameError
  | storeError (e : DBError)
deriving DecidableEq

/-- The pure success path of `deduplicate_books`: keep the incoming books
whose `goodreads_id` the store does not already contain (membership
restricted to the truthy incoming ids, mirroring the `in_` query). -/
def dedupPure (books : List CSVBook) (store : List Book) : List CSVBook :=
  let incoming_goodreads_ids := truthyIds books
  let existing_goodreads_ids :=
    (store.filter (fun bk => bk.goodreads_id ∈ incoming_goodreads_ids)).map
      (fun bk => bk.goodreads_id)
  books.filter (fun b => b.goodreads_id ∉ existing_goodreads_ids)

/-- Model of `deduplicate_books(books, db)`: `db` is the outcome of the store
query. On success the new-book list is computed; on a query fault the
`except Exception` clause logs and swallows the exception, `new_books` is
never assigned, and `return new_books` raises `NameError`
(`UnboundLocalError`) — the store error itself never escapes. -/
def deduplicate_books (books : List CSVBook) (db : Except DBError (List Book)) :
    Except PyError (List CSVBook) :=
  match db with
  | Except.ok store => Except.ok (dedupPure books store)
  | Except.error _ => Except.error PyError.nameError

/-- Model of `ingest_books_to_db(books, db)` on its success path: convert each
`BookCreate` to a `Book` row, `add_all`, commit. Returns (new store,
ingested count). -/
def ingest_books_to_db (books : List BookCreate) (store : List Book) :
    List Book × Nat :=
  (store ++ books.map bookOfCreate, books.length)

/-! ## Orchestrator (`backend/app/scripts/orchestrate_csv_to_db.py`) -/

/-- Try to match the regex `\s*\([^)]*\)` at the head of the character
list, returning the remainder on success: any run of whitespace, then
`(`, then characters up to the first `)`. -/
def matchParen (cs : List Char) : Option (List Char) :=
  match cs.dropWhile Char.isWhitespace with
  | '(' :: r =>
      match r.dropWhile (fun c => c ≠ ')') with
      | ')' :: r2 => some r2
      | _ => none
  | _ => none

/-- Model of `re.sub` with pattern `\s*\([^)]*\)` and empty replacement: leftmost, non-overlapping removal of
parenthesised groups and the whitespace before them. Fuel-bounded scan;
`cs.length` fuel always suffices since every step consumes a character. -/
def reSubParensGo : Nat → List Char → List Char
  | 0, cs => cs
  | _ + 1, [] => []
  | fuel + 1, c :: rest =>
      match matchParen (c :: rest) with
      | some r => reSubParensGo fuel r
      | none => c :: reSubParensGo fuel rest

/-- The title cleaning `re.sub(...)` plus `.strip()` as done per new book
before the enrichment lookup. -/
def cleanTitle (t : String) : String :=
  pyStrip (String.mk (reSubParensGo t.data.length t.data))

/-- The batched ingest loop `for i in range(0, len(transformed_books),
batch_size)`: ingest successive 100-element slices. Fuel-bounded; the
pending-list length always suffices. -/
def ingestBatchesGo : Nat → List Book → List BookCreate → List Book
  | 0, db, _ => db
  | _ + 1, db, [] => db
  | fuel + 1, db, b :: rest =>
      ingestBatchesGo fuel
        (ingest_books_to_db ((b :: rest).take 100) db).1
        ((b :: rest).drop 100)

/-- All batches of the orchestrator's ingest loop. -/
def ingestAllBatches (db : List Book) (transformed : List BookCreate) : List Book :=
  ingestBatchesGo transformed.length db transformed

/-- Model of `orchestrate_csv_to_db` on a fault-free run: parse, update statuses,
delete removed rows, detect new books against the post-delete store,
enrich + transform each new book (the per-record `except` never fires in
this model because every modelled step is total), then ingest in batches
of 100. `resp` is the external service oracle; the result is the final
store (the Python function returns `None`; its observable effect is the
store). A parse fault propagates. -/
def orchestrate_csv_to_db (resp : String → Nat → HttpResponse)
    (rows : List CsvRow) (store : List Book) : Except ParseError (List Book) :=
  match parse_goodreads_csv rows with
  | Except.error e => Except.error e
  | Except.ok books =>
      let s1 := (update_books books store).1
      let s2 := (delete_books books s1).1
      let new_books := dedupPure books s2
      let transformed_books := new_books.map (fun b =>
        transform_book b
          (get_google_books_data resp (cleanTitle b.title) b.author b.isbn_10 b.isbn_13))
      Except.ok (ingestAllBatches s2 transformed_books)

/-- The ids currently in the store, in row order. -/
def storeIds (store : List Book) : List String :=
  store.map (fun bk => bk.goodreads_id)

/-- Spec-side description of the enrichment lookup, written from the
spec's words for comparison with `get_google_books_data`: the attempted
query tiers in strict priority order — ISBN-13 when present, ISBN-10 when
present, then the combined title+author search — with the first tier that
yields results processed into the returned record, and `none` ("no
match", not an error) when every attempted tier yields nothing. -/
def lookupSpec (resp : String → Nat → HttpResponse)
    (title author : String) (isbn_10 isbn_13 : Option String) : Option GBData :=
  let attempted :=
    (if optStrTruthy isbn_13 then ["isbn:" ++ isbn_13.getD ""] else []) ++
    (if optStrTruthy isbn_10 then ["isbn:" ++ isbn_10.getD ""] else []) ++
    ["intitle:" ++ title ++ "+inauthor:" ++ author]
  ((attempted.map (fun q => (call_google_books_api (resp q) 3).result)).findSome?
      id).map (processApiResponse title author)

/-! ## Concrete fixtures for witnesses and counterexamples -/

/-- A well-formed Goodreads CSV row. -/
def rowGood : CsvRow :=
  { title := "Dune", author := "Frank Herbert", isbn := "=\"0441013597\"",
    isbn13 := "", additionalAuthors := "", numPages := "412",
    bookId := "42", exclusiveShelf := "read", dateRead := "2021/05/09" }

/-- The candidate record `rowGood` parses to. -/
def bGood : CSVBook :=
  { title := "Dune", author := "Frank Herbert", isbn_10 := some "0441013597",
    isbn_13 := none, additional_authors := none, num_pages := some 412,
    goodreads_id := "42", status := "read", finish_date := some ⟨2021, 5, 9⟩ }

/-- A valid row whose finish-date field is empty. -/
def rowNoDate : CsvRow :=
  { title := "Dune", author := "Frank Herbert", isbn := "", isbn13 := "",
    additionalAuthors := "", numPages := "", bookId := "43",
    exclusiveShelf := "read", dateRead := "" }

/-- The candidate record `rowNoDate` parses to. -/
def bNoDate : CSVBook :=
  { title := "Dune", author := "Frank Herbert", isbn_10 := none, isbn_13 := none,
    additional_authors := none, num_pages := none, goodreads_id := "43",
    status := "read", finish_date := none }

/-- A row whose title field is the empty string but which passes Pydantic
validation (a plain `str` field accepts `""`). -/
def rowEmptyTitle : CsvRow :=
  { title := "", author := "A", isbn := "", isbn13 := "", additionalAuthors := "",
    numPages := "", bookId := "7", exclusiveShelf := "read", dateRead := "" }

/-- A row with a non-empty finish-date that does not match `YYYY/MM/DD`. -/
def rowBadDate : CsvRow :=
  { title := "T", author := "A", isbn := "", isbn13 := "", additionalAuthors := "",
    numPages := "", bookId := "8", exclusiveShelf := "read", dateRead := "banana" }

/-- A row whose shelf value is outside the `Literal` status set, so
`CSVBook` validation rejects it. -/
def rowBadStatus : CsvRow :=
  { title := "T", author := "A", isbn := "", isbn13 := "", additionalAuthors := "",
    numPages := "", bookId := "9", exclusiveShelf := "wishlist", dateRead := "" }

/-- A service oracle that answers every query with HTTP 500. -/
def resp500 : String → Nat → HttpResponse :=
  fun _ _ => { status := 500, items := [] }

/-- A service oracle that answers every query with HTTP 429. -/
def resp429 : String → Nat → HttpResponse :=
  fun _ _ => { status := 429, items := [] }

/-- A stored row with goodreads id 99 and status read. -/
def bkX : Book :=
  { google_books_id := none, google_books_link := none, title := "Old", authors := ["O"],
    published_date := none, year_published := none, page_count := none, categories := none,
    genre := none, description := none, isbn_10 := none, isbn_13 := none,
    small_thumbnail := none, thumbnail := none, status := "read", goodreads_id := "99",
    finish_date := none }

/-- An incoming candidate matching `bkX` in both id and status. -/
def bookU : CSVBook :=
  { title := "Old", author := "O", isbn_10 := none, isbn_13 := none,
    additional_authors := none, num_pages := none, goodreads_id := "99",
    status := "read", finish_date := none }

/-- A candidate with the non-empty title A. -/
def bookA : CSVBook :=
  { title := "A", author := "AuthA", isbn_10 := none, isbn_13 := none,
    additional_authors := none, num_pages := none, goodreads_id := "1",
    status := "read", finish_date := none }

/-- An enrichment result carrying the non-empty title B. -/
def gbB : GBData :=
  { google_books_id := some "g1", google_books_link := none, title := "B",
    authors := ["AuthB"], published_date := none, year_published := none,
    page_count := some 100, categories := none, genre := none, description := none,
    isbn_10 := none, isbn_13 := none, small_thumbnail := none, thumbnail := none }

/-! ## Helper lemmas -/

/-- A query answered 429 on every attempt exhausts the three retries:
three attempts, backoff delays 2 then 4 seconds, and a `None` result. -/
theorem callApi_rate_limited (resp : Nat → HttpResponse)
    (h : ∀ n, n < 3 → (resp n).status = 429) :
    call_google_books_api resp 3 = { result := none, attempts := 3, delays := [2, 4] } := by
  have h0 := h 0 (by omega)
  have h1 := h 1 (by omega)
  have h2 := h 2 (by omega)
  simp [call_google_books_api, callApiGo, h0, h1, h2]

/-- Pydantic validation succeeding pins down the record's status and
finish date and certifies the status literal. -/
theorem mkCSVBook_some {t a : String} {i1 i2 aa : Option String} {np : Option Nat}
    {g st : String} {fd : Option PDate} {b : CSVBook}
    (h : mkCSVBook t a i1 i2 aa np g st fd = some b) :
    b.status = st ∧ b.finish_date = fd ∧ st ∈ statusLiterals := by
  unfold mkCSVBook at h
  split at h
  · cases h
    exact ⟨rfl, rfl, by assumption⟩
  · cases h

/-- A row the parser keeps always carries a validated status. -/
theorem parseRow_some_status {row : CsvRow} {b : CSVBook}
    (h : parseRow row = Except.ok (some b)) : b.status ∈ statusLiterals := by
  simp only [parseRow] at h
  cases hfd : parseFinishDate (pyStrip row.dateRead) with
  | error e => rw [hfd] at h; cases h
  | ok fd =>
      rw [hfd] at h
      simp only [Except.ok.injEq] at h
      obtain ⟨hst, _, hmem⟩ := mkCSVBook_some h
      rw [hst]
      exact hmem

/-- A list's last optional element is a member. -/
theorem getLast?_is_mem {α : Type _} {l : List α} {a : α}
    (h : l.getLast? = some a) : a ∈ l := by
  obtain ⟨hne, hx⟩ := List.mem_getLast?_eq_getLast (x := a) h
  rw [hx]
  exact List.getLast_mem hne

/-- The index `lastIdxOf` returns points at a stored row carrying the
looked-up goodreads id. -/
theorem lastIdxOf_get {store : List Book} {gid : String} {i : Nat}
    (h : lastIdxOf store gid = some i) :
    ∃ bk, store.get? i = some bk ∧ bk.goodreads_id = gid := by
  have hm := getLast?_is_mem h
  rw [List.mem_filter] at hm
  obtain ⟨_, hpred⟩ := hm
  cases hbk : store.get? i with
  | none => rw [hbk] at hpred; simp at hpred
  | some bk =>
      rw [hbk] at hpred
      exact ⟨bk, rfl, by simpa using hpred⟩

/-- The update loop leaves the store and count untouched when every
incoming pair agrees with every stored row of the same id. -/
theorem updateGo_no_change (pairs : List (String × String)) :
    ∀ (store : List Book) (c : Nat),
      (∀ p ∈ pairs, ∀ bk ∈ store, bk.goodreads_id = p.1 → bk.status = p.2) →
      updateGo pairs store c = (store, c) := by
  induction pairs with
  | nil => intro store c _; rfl
  | cons p rest ih =>
      obtain ⟨gid, st⟩ := p
      intro store c h
      have hrest : ∀ p ∈ rest, ∀ bk ∈ store, bk.goodreads_id = p.1 → bk.status = p.2 :=
        fun p hp => h p (List.mem_cons_of_mem _ hp)
      cases hL : lastIdxOf store gid with
      | none =>
          simp only [updateGo, hL]
          exact ih store c hrest
      | some i =>
          obtain ⟨bk, hget, hgid⟩ := lastIdxOf_get hL
          have hstat : bk.status = st :=
            h (gid, st) (List.mem_cons_self _ _) bk (List.get?_mem hget) hgid
          simp only [updateGo, hL, hget]
          rw [if_neg (by simp [hstat])]
          exact ih store c hrest

/-- A stored row whose status already agrees with every incoming pair
carrying its id is never mutated by the update loop. -/
theorem updateGo_frame (pairs : List (String × String)) :
    ∀ (store : List Book) (c i : Nat) (bk : Book),
      store.get? i = some bk →
      (∀ p ∈ pairs, p.1 = bk.goodreads_id → p.2 = bk.status) →
      (updateGo pairs store c).1.get? i = some bk := by
  induction pairs with
  | nil => intro store c i bk hget _; exact hget
  | cons p rest ih =>
      obtain ⟨gid, st⟩ := p
      intro store c i bk hget h
      have hrest : ∀ p ∈ rest, p.1 = bk.goodreads_id → p.2 = bk.status :=
        fun p hp => h p (List.mem_cons_of_mem _ hp)
      cases hL : lastIdxOf store gid with
      | none =>
          simp only [updateGo, hL]
          exact ih store c i bk hget hrest
      | some j =>
          obtain ⟨bk', hget', hgid'⟩ := lastIdxOf_get hL
          simp only [updateGo, hL, hget']
          by_cases hst : bk'.status ≠ st
          · rw [if_pos hst]
            have hji : j ≠ i := by
              intro heq
              subst heq
              rw [hget] at hget'
              injection hget' with hbk'
              subst hbk'
              exact hst ((h (gid, st) (List.mem_cons_self _ _) hgid'.symm).symm)
            refine ih _ _ i bk ?_ hrest
            rw [List.get?_eq_getElem?, List.getElem?_set_ne hji, ← List.get?_eq_getElem?]
            exact hget
          · rw [if_neg hst]
            exact ih store c i bk hget hrest

/-- With enough fuel, the batched ingest loop appends exactly the
converted rows of every batch, in order. -/
theorem ingestBatchesGo_append :
    ∀ (fuel : Nat) (db : List Book) (l : List BookCreate), l.length ≤ fuel →
      ingestBatchesGo fuel db l = db ++ l.map bookOfCreate := by
  intro fuel
  induction fuel with
  | zero =>
      intro db l h
      have : l = [] := List.eq_nil_of_length_eq_zero (Nat.le_zero.mp h)
      subst this
      simp [ingestBatchesGo]
  | succ fuel ih =>
      intro db l h
      cases l with
      | nil => simp [ingestBatchesGo]
      | cons b rest =>
          simp only [ingestBatchesGo, ingest_books_to_db]
          rw [ih _ _ ?_]
          · rw [List.append_assoc, ← List.map_append, List.take_append_drop]
          · rw [List.length_drop]
            simp only [List.length_cons] at h ⊢
            omega

/-- The merged record keeps the candidate's external id, whatever the
enrichment outcome. -/
theorem bookOfCreate_transform_id (b : CSVBook) (g : Option GBData) :
    (bookOfCreate (transform_book b g)).goodreads_id = b.goodreads_id := by
  cases g <;> rfl

/-- Every truthy incoming id is the id of some incoming candidate. -/
theorem truthyIds_subset {books : List CSVBook} :
    ∀ x ∈ truthyIds books, x ∈ books.map CSVBook.goodreads_id := by
  intro x hx
  rw [truthyIds, List.mem_filterMap] at hx
  obtain ⟨b, hb, hif⟩ := hx
  by_cases hg : b.goodreads_id ≠ ""
  · rw [if_pos hg] at hif
    injection hif with hif
    subst hif
    exact List.mem_map_of_mem _ hb
  · rw [if_neg hg] at hif
    cases hif

/-- Core of the reconciler invariant: for a non-empty incoming list, the
delete pass followed by new-record detection and full ingest leaves the
store with exactly the incoming ids (for any per-record merge `tf` that
preserves the candidate's id). -/
theorem sync_core (books : List CSVBook) (s1 : List Book) (hne : books ≠ [])
    (tf : CSVBook → BookCreate)
    (htf : ∀ b, (bookOfCreate (tf b)).goodreads_id = b.goodreads_id) :
    ∀ id, id ∈ storeIds (ingestAllBatches (delete_books books s1).1
        ((dedupPure books (delete_books books s1).1).map tf)) ↔
      id ∈ books.map CSVBook.goodreads_id := by
  intro id
  have hempty : books.isEmpty = false := by
    cases books with
    | nil => exact absurd rfl hne
    | cons b t => rfl
  have hs2 : (delete_books books s1).1 =
      s1.filter (fun bk => bk.goodreads_id ∈ truthyIds books) := by
    simp [delete_books, hempty]
  rw [hs2]
  rw [ingestAllBatches, ingestBatchesGo_append _ _ _ (le_refl _)]
  rw [storeIds, List.map_append, List.map_map, List.map_map]
  have hmap : (dedupPure books (s1.filter (fun bk => bk.goodreads_id ∈ truthyIds books))).map
        (((fun bk => bk.goodreads_id) ∘ bookOfCreate) ∘ tf) =
      (dedupPure books (s1.filter (fun bk => bk.goodreads_id ∈ truthyIds books))).map
        CSVBook.goodreads_id := by
    exact List.map_congr_left (fun b _ => htf b)
  rw [hmap, List.mem_append]
  constructor
  · intro h
    rcases h with h | h
    · obtain ⟨bk, hbk, rfl⟩ := List.mem_map.mp h
      have := (List.mem_filter.mp hbk).2
      exact truthyIds_subset _ (by simpa using this)
    · obtain ⟨b, hb, rfl⟩ := List.mem_map.mp h
      have hbb : b ∈ books := (List.mem_filter.mp hb).1
      exact List.mem_map_of_mem _ hbb
  · intro h
    obtain ⟨b, hb, rfl⟩ := List.mem_map.mp h
    by_cases hex : b.goodreads_id ∈
        ((s1.filter (fun bk => bk.goodreads_id ∈ truthyIds books)).filter
          (fun bk => bk.goodreads_id ∈ truthyIds books)).map (fun bk => bk.goodreads_id)
    · left
      obtain ⟨bk, hbk, heq⟩ := List.mem_map.mp hex
      have hbk2 : bk ∈ s1.filter (fun bk => bk.goodreads_id ∈ truthyIds books) :=
        (List.mem_filter.mp hbk).1
      rw [← heq]
      exact List.mem_map_of_mem _ hbk2
    · right
      apply List.mem_map_of_mem
      rw [dedupPure]
      rw [List.mem_filter]
      exact ⟨hb, by simpa using hex⟩

/-! ## Claim theorems -/

/-- C1 (counterexample): with an empty incoming candidate list and a
non-empty store, `delete_books` deletes nothing — the store keeps its one
row and the returned count is 0, not 1. -/
theorem delete_books_empty_incoming_cex :
    delete_books [] [bkX] = ([bkX], 0, false) ∧ ([bkX] : List Book) ≠ [] := by
  decide

/-- C1 (amended): when the incoming candidate list is empty, the
`if books:` guard skips the delete pass entirely — for every store, the
store is unchanged, the deletion count is 0, and nothing is committed
(rather than every stored row being deleted). -/
theorem delete_books_empty_incoming_noop :
    ∀ store : List Book, delete_books [] store = (store, 0, false) :=
  fun _ => rfl

/-- C2 (counterexample): an HTTP 500 answer makes
`call_google_books_api` return `None` after a single attempt — the
transport-level fault is converted into the same `None` a no-match
produces, and a full lookup in which every tier gets 500 returns an
overall `None` ("no match") instead of propagating an error. -/
theorem transport_fault_not_propagated_cex :
    call_google_books_api (fun _ => { status := 500, items := [] }) 3 =
      { result := none, attempts := 1, delays := [] } ∧
    get_google_books_data resp500 "Dune" "Frank Herbert"
      (some "0441013597") (some "9780441013593") = none := by
  decide

/-- C2 (amended): an HTTP status that is neither 200 nor 429 causes that
query tier to log an error and yield `None` after exactly one attempt,
with no retry and no propagated error; the lookup then falls through to
the next tier exactly as for a no-match. -/
theorem call_api_transport_fault_yields_none :
    ∀ resp : Nat → HttpResponse, (resp 0).status ≠ 200 → (resp 0).status ≠ 429 →
      call_google_books_api resp 3 = { result := none, attempts := 1, delays := [] } := by
  intro resp h200 h429
  simp [call_google_books_api, callApiGo, h200, h429]

/-- C2 (witness): the amended theorem applied to the all-500 oracle. -/
theorem call_api_transport_fault_witness :
    call_google_books_api (fun _ => { status := 500, items := [] }) 3 =
      { result := none, attempts := 1, delays := [] } :=
  call_api_transport_fault_yields_none (fun _ => { status := 500, items := [] })
    (by decide) (by decide)

/-- C3 (counterexample): with candidate title A and a present enrichment
result whose title is the non-empty B, the merged record's title is A —
the candidate's title, not the enrichment's as the claim states. -/
theorem transform_title_cex :
    (transform_book bookA (some gbB)).title = "A" ∧ gbB.title = "B" := by
  decide

/-- C3 (amended): with a present enrichment result, the merged record's
title equals the candidate's title whenever that is non-empty, and falls
back to the enrichment result's title only when the candidate's title is
empty (the preference order is the reverse of the claim's). -/
theorem transform_title_prefers_candidate :
    (∀ (book : CSVBook) (g : GBData), book.title ≠ "" →
        (transform_book book (some g)).title = book.title) ∧
    (∀ (book : CSVBook) (g : GBData), book.title = "" →
        (transform_book book (some g)).title = g.title) := by
  constructor <;> intro book g h <;> simp [transform_book, h]

/-- C3 (witness): the amended theorem applied to concrete records. -/
theorem transform_title_witness :
    (transform_book bookA (some gbB)).title = bookA.title :=
  transform_title_prefers_candidate.1 bookA gbB (by decide)

/-- C5 (counterexample): a fault-free run over a CSV that parses to zero
candidates leaves a non-empty store untouched (the delete pass is guarded
by `if books:`), so the store's id set (here containing 99) does not
equal the incoming id set (empty), contradicting the claim's "for every
initial store state". -/
theorem orchestrate_empty_csv_cex :
    orchestrate_csv_to_db resp500 [] [bkX] = Except.ok [bkX] ∧
    parse_goodreads_csv [] = Except.ok ([] : List CSVBook) ∧
    "99" ∈ storeIds [bkX] ∧ "99" ∉ ([] : List CSVBook).map CSVBook.goodreads_id := by
  decide

/-- C5 (amended): after a fault-free orchestration run whose parsed
candidate list is non-empty, the store's set of external ids equals
exactly the parsed candidates' ids (rows dropped at parse time excluded);
when the parsed list is empty the delete pass is skipped and the prior
store rows survive, so the equality can fail. -/
theorem orchestrate_store_ids_sync :
    ∀ (resp : String → Nat → HttpResponse) (rows : List CsvRow)
      (store : List Book) (books : List CSVBook),
      parse_goodreads_csv rows = Except.ok books → books ≠ [] →
      ∃ final, orchestrate_csv_to_db resp rows store = Except.ok final ∧
        ∀ id, id ∈ storeIds final ↔ id ∈ books.map CSVBook.goodreads_id := by
  intro resp rows store books hp hne
  refine ⟨_, ?_, sync_core books (update_books books store).1 hne
    (fun b => transform_book b
      (get_google_books_data resp (cleanTitle b.title) b.author b.isbn_10 b.isbn_13))
    (fun b => bookOfCreate_transform_id b _)⟩
  simp only [orchestrate_csv_to_db, hp]

/-- C5 (witness): the amended theorem applied to a concrete one-row CSV
and a store holding one stale row. -/
theorem orchestrate_store_ids_sync_witness :
    ∃ final, orchestrate_csv_to_db resp500 [rowGood] [bkX] = Except.ok final ∧
      ∀ id, id ∈ storeIds final ↔ id ∈ [bGood].map CSVBook.goodreads_id :=
  orchestrate_store_ids_sync resp500 [rowGood] [bkX] [bGood] (by decide) (by decide)

/-- C6: the status-update pass mutates only stored rows whose status
differs from the incoming status for their external id — a row agreeing
with every incoming record carrying its id is left exactly as it was —
and on input whose statuses all match the stored statuses the pass
performs zero writes: the store is returned unchanged, the count is 0,
and no commit happens. -/
theorem update_books_only_changed :
    (∀ (books : List CSVBook) (store : List Book) (i : Nat) (bk : Book),
        store.get? i = some bk →
        (∀ b ∈ books, b.goodreads_id = bk.goodreads_id → b.status = bk.status) →
        (update_books books store).1.get? i = some bk) ∧
    (∀ (books : List CSVBook) (store : List Book),
        (∀ b ∈ books, ∀ bk ∈ store, bk.goodreads_id = b.goodreads_id →
          bk.status = b.status) →
        update_books books store = (store, 0, false)) := by
  constructor
  · intro books store i bk hget h
    unfold update_books
    by_cases hbe : books.isEmpty
    · rw [if_pos hbe]
      exact hget
    · rw [if_neg hbe]
      apply updateGo_frame _ store 0 i bk hget
      intro p hp
      rw [List.mem_filterMap] at hp
      obtain ⟨b, hb, hif⟩ := hp
      by_cases hg : b.goodreads_id ≠ ""
      · rw [if_pos hg] at hif
        injection hif with hif
        subst hif
        intro hpe
        exact h b hb hpe
      · rw [if_neg hg] at hif
        cases hif
  · intro books store h
    unfold update_books
    by_cases hbe : books.isEmpty
    · rw [if_pos hbe]
    · have hpairs : ∀ p ∈ books.filterMap (fun b =>
          if b.goodreads_id ≠ "" then some (b.goodreads_id, b.status) else none),
          ∀ bk ∈ store, bk.goodreads_id = p.1 → bk.status = p.2 := by
        intro p hp
        rw [List.mem_filterMap] at hp
        obtain ⟨b, hb, hif⟩ := hp
        by_cases hg : b.goodreads_id ≠ ""
        · rw [if_pos hg] at hif
          injection hif with hif
          subst hif
          intro bk hbk hid
          exact h b hb bk hbk hid
        · rw [if_neg hg] at hif
          cases hif
      rw [if_neg hbe, updateGo_no_change _ store 0 hpairs]
      rfl

/-- C6 (witness): the theorem applied to a concrete matching store and
input. -/
theorem update_books_only_changed_witness :
    (update_books [bookU] [bkX]).1.get? 0 = some bkX ∧
    update_books [bookU] [bkX] = ([bkX], 0, false) :=
  ⟨update_books_only_changed.1 [bookU] [bkX] 0 bkX (by decide) (by decide),
   update_books_only_changed.2 [bookU] [bkX] (by decide)⟩

/-- C7: the enrichment client equals its spec-side description — tiers
attempted in strict priority order (ISBN-13 when present, ISBN-10 when
present, then title+author), the first tier yielding results is processed
and returned, and when every attempted tier yields nothing the result is
the value `none` ("no match"), not an error. -/
theorem get_google_books_data_tier_order :
    ∀ (resp : String → Nat → HttpResponse) (title author : String)
      (isbn_10 isbn_13 : Option String),
      get_google_books_data resp title author isbn_10 isbn_13 =
        lookupSpec resp title author isbn_10 isbn_13 := by
  intro resp title author isbn_10 isbn_13
  unfold get_google_books_data lookupSpec
  by_cases h13 : optStrTruthy isbn_13 <;> by_cases h10 : optStrTruthy isbn_10 <;>
    simp only [h13, h10, if_true, if_false, Bool.false_eq_true, List.nil_append,
      List.cons_append, List.map_cons, List.map_nil, List.findSome?_cons, id] <;>
  · cases hc13 : (call_google_books_api (resp ("isbn:" ++ isbn_13.getD "")) 3).result <;>
    cases hc10 : (call_google_books_api (resp ("isbn:" ++ isbn_10.getD "")) 3).result <;>
    cases hcta : (call_google_books_api
        (resp ("intitle:" ++ title ++ "+inauthor:" ++ author)) 3).result <;>
    simp [hc13, hc10, hcta, List.findSome?]

/-- C8: a query rate-limited on every attempt makes exactly 3 attempts
with increasing backoff delays (2s then 4s) and then yields `None` rather
than an error; and when the ISBN-13 tier is exhausted this way, the
lookup proceeds exactly as it would without an ISBN-13, i.e. it falls
through to the next tier in priority order. -/
theorem rate_limit_three_attempts_then_fallthrough :
    (∀ resp : Nat → HttpResponse, (∀ n, n < 3 → (resp n).status = 429) →
       call_google_books_api resp 3 = { result := none, attempts := 3, delays := [2, 4] }) ∧
    (∀ (resp : String → Nat → HttpResponse) (title author : String)
       (isbn_10 : Option String) (s : String), s ≠ "" →
       (∀ n, n < 3 → (resp ("isbn:" ++ s) n).status = 429) →
       get_google_books_data resp title author isbn_10 (some s) =
         get_google_books_data resp title author isbn_10 none) := by
  constructor
  · exact callApi_rate_limited
  · intro resp title author isbn_10 s hs h
    have hc := callApi_rate_limited (resp ("isbn:" ++ s)) h
    simp [get_google_books_data, optStrTruthy, hs, hc]

/-- C8 (witness): the theorem applied to the all-429 oracle. -/
theorem rate_limit_witness :
    call_google_books_api (fun _ => { status := 429, items := [] }) 3 =
      { result := none, attempts := 3, delays := [2, 4] } ∧
    get_google_books_data resp429 "T" "A" none (some "9780000000002") =
      get_google_books_data resp429 "T" "A" none none :=
  ⟨rate_limit_three_attempts_then_fallthrough.1 _ (fun _ _ => rfl),
   rate_limit_three_attempts_then_fallthrough.2 resp429 "T" "A" none _
     (by decide) (fun _ _ => rfl)⟩

/-- C10: when the store query inside `deduplicate_books` raises, the
`except` clause swallows the store error and the function's `return`
raises `NameError` (`UnboundLocalError`) for the never-assigned
`new_books` — the caller sees an undefined-variable error, never a
defined store-error value, and no "new" set is produced. -/
theorem deduplicate_store_fault_name_error :
    ∀ (books : List CSVBook) (e : DBError),
      deduplicate_books books (Except.error e) = Except.error PyError.nameError :=
  fun _ _ => rfl

/-- C4 (counterexample): a row whose non-empty finish-date field does not
match YYYY/MM/DD raises an uncaught ValueError that aborts the whole
parse run — the following well-formed row is never parsed. -/
theorem parse_bad_date_aborts_cex :
    parse_goodreads_csv [rowBadDate, rowGood] = Except.error ParseError.valueError := by
  decide

/-- C4 (amended): an empty finish-date field yields a candidate with an
absent finish_date and parsing continues with the remaining rows; but a
non-empty finish-date that does not match YYYY/MM/DD raises a ValueError
that the row loop's ValidationError handler does not catch, aborting the
whole parse run. -/
theorem parse_finish_date_handling :
    (∀ (row : CsvRow) (rest : List CsvRow) (b : CSVBook),
        pyStrip row.dateRead = "" → parseRow row = Except.ok (some b) →
        b.finish_date = none ∧
        parse_goodreads_csv (row :: rest) =
          (parse_goodreads_csv rest).map (fun bs => b :: bs)) ∧
    (∀ (row : CsvRow) (rest : List CsvRow),
        pyStrip row.dateRead ≠ "" → parseDateYMD (pyStrip row.dateRead) = none →
        parse_goodreads_csv (row :: rest) = Except.error ParseError.valueError) := by
  constructor
  · intro row rest b hd hr
    refine ⟨?_, by simp [parse_goodreads_csv, hr]⟩
    have hfd : parseFinishDate (pyStrip row.dateRead) = Except.ok none := by
      rw [hd]; rfl
    simp only [parseRow, hfd] at hr
    simp only [Except.ok.injEq] at hr
    exact (mkCSVBook_some hr).2.1
  · intro row rest hd hnone
    have hfd : parseFinishDate (pyStrip row.dateRead) =
        Except.error ParseError.valueError := by
      unfold parseFinishDate
      rw [if_neg hd, hnone]
    have hr : parseRow row = Except.error ParseError.valueError := by
      simp only [parseRow, hfd]
    simp [parse_goodreads_csv, hr]

/-- C4 (witness): the amended theorem applied to a concrete empty-date row
and a concrete malformed-date row. -/
theorem parse_finish_date_witness :
    (bNoDate.finish_date = none ∧
     parse_goodreads_csv [rowNoDate] =
       (parse_goodreads_csv []).map (fun bs => bNoDate :: bs)) ∧
    parse_goodreads_csv [rowBadDate] = Except.error ParseError.valueError :=
  ⟨parse_finish_date_handling.1 rowNoDate [] bNoDate (by decide) (by decide),
   parse_finish_date_handling.2 rowBadDate [] (by decide) (by decide)⟩

/-- C9 (counterexample): a row whose Title field is the empty string
passes validation (a required Pydantic str field accepts the empty
string), so the parser's output contains a candidate with an empty
title. -/
theorem parser_empty_title_cex :
    (parse_goodreads_csv [rowEmptyTitle]).map (fun bs => bs.map CSVBook.title) =
      Except.ok [""] := by
  decide

/-- C9 (amended): every candidate in the parser's output has its
title/author/external-id fields present and a status from the allowed
literal set, and a row that fails validation is skipped while parsing
continues with the remaining rows; but presence does not imply
non-emptiness — empty title, author or external-id strings pass
validation and flow through. -/
theorem parser_output_invariant :
    (∀ (rows : List CsvRow) (bs : List CSVBook),
        parse_goodreads_csv rows = Except.ok bs →
        ∀ b ∈ bs, b.status ∈ statusLiterals) ∧
    (∀ (row : CsvRow) (rest : List CsvRow),
        parseRow row = Except.ok none →
        parse_goodreads_csv (row :: rest) = parse_goodreads_csv rest) := by
  constructor
  · intro rows
    induction rows with
    | nil =>
        intro bs h b hb
        simp only [parse_goodreads_csv, Except.ok.injEq] at h
        subst h
        simp at hb
    | cons row rest ih =>
        intro bs h b hb
        rw [parse_goodreads_csv] at h
        cases hr : parseRow row with
        | error e => rw [hr] at h; cases h
        | ok o =>
            cases o with
            | none =>
                rw [hr] at h
                exact ih bs h b hb
            | some b0 =>
                rw [hr] at h
                cases hrest : parse_goodreads_csv rest with
                | error e => rw [hrest] at h; cases h
                | ok bs' =>
                    rw [hrest] at h
                    simp only [Except.map, Except.ok.injEq] at h
                    subst h
                    rcases List.mem_cons.mp hb with hb0 | hb'
                    · subst hb0
                      exact parseRow_some_status hr
                    · exact ih bs' hrest b hb'
  · intro row rest hr
    simp [parse_goodreads_csv, hr]

/-- C9 (witness): the amended theorem applied to a concrete parse with an
invalid-status row skipped mid-run. -/
theorem parser_output_invariant_witness :
    bGood.status ∈ statusLiterals ∧
    parse_goodreads_csv [rowBadStatus, rowGood] = parse_goodreads_csv [rowGood] :=
  ⟨parser_output_invariant.1 [rowGood] [bGood] (by decide) bGood (by decide),
   parser_output_invariant.2 rowBadStatus [rowGood] (by decide)⟩

end ReadingDashboard
